import Mathlib

/-!
Verification of the code-execution engine of the `python-agent` repository
(`src/code_executor.py` with its configuration `src/config.py`).

The Python source is shallowly embedded: Python strings are Lean `String`s
manipulated through their underlying character lists, dictionaries are
association lists, and the parts of the behaviour that live outside the
repository (the CPython parser, the importability of optional modules in the
hosting environment, the wall clock, and what one `exec` run writes to the
redirected standard streams) are oracle parameters of the embedded functions.

One point of fidelity deserves emphasis.  `execute_code` runs
`exec(code, exec_globals, exec_locals)` on a separate worker thread
(`threading.Thread`, lines 64-71) and merely `join`s it.  In CPython an
exception raised inside a thread's target is NOT re-raised by `join`: the
thread dies after `threading.excepthook` prints the traceback to the
current `sys.stderr` (which is redirected to the request's capture buffer
at that moment), and `join` returns normally.  Consequently the
`except SyntaxError / ImportError / Exception` handlers of `execute_code`
(lines 90-95) can only fire for faults raised in the caller thread
(namespace construction, thread start), never for faults raised by the
submitted code.  The embedding's `RunBehavior` mirrors exactly this: a
faulting run is a `finished` run whose captured stderr holds the traceback.
-/

namespace PythonAgent

/-! ## Python string primitives (character-list semantics of `str`) -/

/-- The ASCII whitespace characters stripped by Python's `str.strip()`. -/
def pyIsSpace (c : Char) : Bool :=
  c = ' ' || c = '\t' || c = '\n' || c = '\r' || c = '\x0b' || c = '\x0c'

/-- `startsWithL pat l` : `pat` is an initial segment of `l`. -/
def startsWithL : List Char → List Char → Bool
  | [], _ => true
  | _ :: _, [] => false
  | a :: as, b :: bs => a == b && startsWithL as bs

/-- `containsL pat l` : `pat` occurs as a contiguous segment of `l`
(Python's `pat in s` on strings). -/
def containsL : List Char → List Char → Bool
  | pat, [] => pat.isEmpty
  | pat, b :: bs => startsWithL pat (b :: bs) || containsL pat bs

/-- Python's substring test `pat in s`. -/
def pyIn (pat s : String) : Bool := containsL pat.data s.data

/-- Python's `str.lower()` (ASCII behaviour). -/
def pyLower (s : String) : String := ⟨s.data.map Char.toLower⟩

/-- Python's `str.strip()`: drop leading and trailing whitespace. -/
def pyStrip (s : String) : String :=
  ⟨((s.data.dropWhile pyIsSpace).reverse.dropWhile pyIsSpace).reverse⟩

/-- Python's slice `s[:n]` on a string: the first `n` characters. -/
def pyTake (s : String) (n : Nat) : String := ⟨s.data.take n⟩

/-- Python's `len` on a string: the number of characters. -/
def pyLen (s : String) : Nat := s.data.length

/-- Python string concatenation. -/
def strCat (a b : String) : String := ⟨a.data ++ b.data⟩

/-- Python falsiness of a string: it is empty. -/
def strIsEmpty (s : String) : Bool := s.data.isEmpty

/-! ## Data model (`src/code_executor.py`) -/

/-- The result dictionary assembled by `CodeExecutor.execute_code`
(keys `success`, `output`, `error`, `execution_time`, `code`).
`execution_time` is a number of seconds (`time.time()` differences),
modelled as a rational. -/
structure ExecutionResult where
  success : Bool
  output : String
  error : String
  execution_time : ℚ
  code : String
deriving Repr, DecidableEq

/-- The dictionary returned by `CodeExecutor._validate_code`
(keys `valid`, `error`). -/
structure ValidationOutcome where
  valid : Bool
  error : String
deriving Repr, DecidableEq

/-- A Python runtime value, as far as the execution namespace needs:
`builtinFn n` is the built-in callable named `n`; `builtinsDict names` is a
`__builtins__` dict binding each name in `names` to the built-in of that
name; `pyModule m` is the (process-wide, cached) module object obtained by
importing `m`; `userObj r t` is an object created by submitted code of
request `r`. -/
inductive PyValue where
  | builtinFn (name : String)
  | builtinsDict (names : List String)
  | pyModule (name : String)
  | userObj (request : Nat) (tag : Nat)
deriving Repr, DecidableEq

/-- Dictionary lookup in an association-list namespace. -/
def nsLookup (g : List (String × PyValue)) (k : String) : Option PyValue :=
  match g with
  | [] => none
  | (k', v) :: rest => if k' = k then some v else nsLookup rest k

/-- The keys bound in a namespace. -/
def nsNames (g : List (String × PyValue)) : List String := g.map Prod.fst

/-! ## Configuration (`src/config.py`) -/

/-- `Config.MAX_EXECUTION_TIME` (seconds). -/
def MAX_EXECUTION_TIME : Nat := 10

/-- `Config.MAX_OUTPUT_LENGTH` (characters). -/
def MAX_OUTPUT_LENGTH : Nat := 10000

/-- `Config.ALLOWED_IMPORTS`.  The source is a Python `set`; since the short
names of its members are pairwise distinct, iteration order does not affect
the constructed namespace, and the embedding fixes the listing order of the
source text. -/
def ALLOWED_IMPORTS : List String :=
  ["math", "random", "datetime", "json", "csv", "re",
   "collections", "itertools", "functools", "operator",
   "numpy", "pandas", "matplotlib.pyplot", "requests"]

/-- `CodeExecutor.__init__`: the executor copies the three configuration
values into instance fields. -/
structure CodeExecutor where
  max_execution_time : Nat
  max_output_length : Nat
  allowed_imports : List String
deriving Repr, DecidableEq

/-- The executor constructed from the shipped `Config`. -/
def defaultExecutor : CodeExecutor :=
  { max_execution_time := MAX_EXECUTION_TIME
    max_output_length := MAX_OUTPUT_LENGTH
    allowed_imports := ALLOWED_IMPORTS }

/-! ## Validator (`CodeExecutor._validate_code`, lines 106-148) -/

/-- The `dangerous_patterns` list, verbatim from lines 120-129. -/
def dangerous_patterns : List String :=
  ["import os", "import subprocess", "import sys",
   "eval(", "exec(", "__import__",
   "open(", "file(", "input(",
   "raw_input(", "compile(",
   "globals()", "locals()", "vars(",
   "dir(", "getattr(", "setattr(",
   "delattr(", "hasattr(",
   "exit(", "quit(", "reload("]

/-- `CodeExecutor._validate_code`.  `pyParse code` is the oracle for
`compile(code, '<string>', 'exec')`: `none` when the code parses,
`some msg` when the CPython parser raises `SyntaxError` with text `msg`.
Line 116 `if not code or not code.strip()` is Python truthiness on strings;
lines 131-137 scan the lowered text for the first matching pattern. -/
def validate_code (pyParse : String → Option String) (code : String) :
    ValidationOutcome :=
  if strIsEmpty code || strIsEmpty (pyStrip code) then
    { valid := false, error := "No code provided" }
  else
    match dangerous_patterns.find? (fun p => pyIn p (pyLower code)) with
    | some p =>
        { valid := false
          error := strCat "Potentially dangerous operation detected: " p }
    | none =>
        match pyParse code with
        | some msg => { valid := false, error := strCat "Syntax error: " msg }
        | none => { valid := true, error := "" }

/-! ## Environment builder (`CodeExecutor._create_safe_globals`, lines 150-211) -/

/-- The keys of the `__builtins__` dict of lines 158-191, verbatim and in
source order. -/
def safe_builtin_names : List String :=
  ["print", "len", "str", "int", "float", "bool",
   "list", "dict", "tuple", "set", "range",
   "enumerate", "zip", "map", "filter", "sorted",
   "sum", "min", "max", "abs", "round", "pow", "divmod",
   "isinstance", "type",
   "ValueError", "TypeError", "IndexError", "KeyError", "Exception"]

/-- The short name a module is bound under (lines 197-204): for a dotted
name, `module_name.split('.')[-1]`, i.e. the suffix after the last dot;
the name itself otherwise. -/
def shortName (m : String) : String :=
  if pyIn "." m then ⟨(m.data.reverse.takeWhile (fun c => c ≠ '.')).reverse⟩
  else m

/-- `CodeExecutor._create_safe_globals`.  `importable m` is the oracle for
whether `__import__(m)` succeeds in the hosting environment; when it does
not, the `except ImportError: pass` of lines 205-207 silently skips the
module.  The returned dict is `{**safe_builtins, **allowed_modules}`
(line 210): the `__builtins__` entry followed by one entry per importable
allowed module under its short name. -/
def create_safe_globals (allowed_imports : List String)
    (importable : String → Bool) : List (String × PyValue) :=
  ("__builtins__", PyValue.builtinsDict safe_builtin_names) ::
    (allowed_imports.filter importable).map
      (fun m => (shortName m, PyValue.pyModule m))

/-! ## Execution runner (`CodeExecutor.execute_code`, lines 20-104) -/

/-- What one request's worker run does, as observed by the caller thread of
`execute_code`.
* `timeout bufOut bufErr`: the worker is still alive when
  `join(timeout=max_execution_time)` elapses; `bufOut`/`bufErr` are whatever
  the abandoned run has written to the capture buffers so far (the source
  ignores them on this path).
* `finished stdout stderr`: the worker finished in time.  This covers both a
  normal return of `exec` and an exception raised by the submitted code: in
  the latter case the thread's excepthook has written the traceback into the
  redirected stderr and `join` returned normally, so `stderr` holds the
  traceback text.
* `callerSyntaxError` / `callerImportError` / `callerOtherError msg`: an
  exception raised in the caller thread (namespace construction or thread
  start) and caught by the handlers of lines 90-95, with `str(e) = msg`. -/
inductive RunBehavior where
  | timeout (bufOut bufErr : String)
  | finished (stdout stderr : String)
  | callerSyntaxError (msg : String)
  | callerImportError (msg : String)
  | callerOtherError (msg : String)
deriving Repr, DecidableEq

/-- The fixed truncation marker of line 84. -/
def truncation_marker : String := "\n... (output truncated)"

/-- `CodeExecutor.execute_code`.  Oracles: `importable` and `pyParse` as
above; `run exec_globals` is what the worker run against the freshly built
namespace does; `elapsed` is the `time.time() - start_time` value the
`finally` block stores for every path that entered the `try` block (the
validation-failure return of lines 33-39 happens before `start_time` is
taken and stores the literal `0`). -/
def execute_code (ex : CodeExecutor) (importable : String → Bool)
    (pyParse : String → Option String)
    (run : List (String × PyValue) → RunBehavior)
    (elapsed : ℚ) (code : String) : ExecutionResult :=
  let validation_result := validate_code pyParse code
  if validation_result.valid = false then
    { success := false, output := "", error := validation_result.error
      execution_time := 0, code := code }
  else
    let exec_globals := create_safe_globals ex.allowed_imports importable
    match run exec_globals with
    | RunBehavior.timeout _ _ =>
        { success := false, output := ""
          error := strCat
            (strCat "Code execution timed out after "
              (toString ex.max_execution_time)) " seconds"
          execution_time := elapsed, code := code }
    | RunBehavior.finished stdout stderr =>
        let stdout_content :=
          if pyLen stdout > ex.max_output_length then
            strCat (pyTake stdout ex.max_output_length) truncation_marker
          else stdout
        { success := true, output := stdout_content
          error := if strIsEmpty stderr then "" else stderr
          execution_time := elapsed, code := code }
    | RunBehavior.callerSyntaxError msg =>
        { success := false, output := ""
          error := strCat "Syntax Error: " msg
          execution_time := elapsed, code := code }
    | RunBehavior.callerImportError msg =>
        { success := false, output := ""
          error := strCat (strCat "Import Error: " msg)
            " - This import is not allowed for security reasons"
          execution_time := elapsed, code := code }
    | RunBehavior.callerOtherError msg =>
        { success := false, output := ""
          error := strCat "Runtime Error: " msg
          execution_time := elapsed, code := code }

/-! ## Per-request namespace freshness (lines 54-57) -/

/-- The mutable state a request's execution works on: its `exec_globals`
and `exec_locals` dictionaries. -/
structure RequestState where
  globals : List (String × PyValue)
  locals : List (String × PyValue)
deriving Repr, DecidableEq

/-- The state a request starts from (lines 56-57):
`exec_globals = self._create_safe_globals()` and `exec_locals = {}`.
`prev` is the final state of the previous request; the source never reads
it, which is exactly the freshness property under scrutiny. -/
def nextRequestInitial (ex : CodeExecutor) (importable : String → Bool)
    (prev : RequestState) : RequestState :=
  { globals := create_safe_globals ex.allowed_imports importable
    locals := [] }

/-- A valid Python identifier over ASCII: nonempty, first character a letter
or underscore, the rest alphanumeric or underscore.  Plain assignment in
submitted code can bind exactly such names. -/
def isPyIdent (s : String) : Bool :=
  !s.data.isEmpty
    && ((s.data.headD 'a').isAlpha || (s.data.headD 'a') = '_')
    && s.data.all (fun c => c.isAlphanum || c = '_')

/-! ## Runtime import statement (CPython semantics over the namespace) -/

/-- The names bound in the `__builtins__` mapping of a namespace. -/
def builtinNamesOf (g : List (String × PyValue)) : List String :=
  match nsLookup g "__builtins__" with
  | some (PyValue.builtinsDict names) => names
  | _ => []

/-- CPython's `import m` statement executed against a namespace: the
interpreter fetches `__import__` from the namespace's `__builtins__`
mapping and raises `ImportError: __import__ not found` when it is absent
(it is absent from every namespace built by `_create_safe_globals`). -/
def runImportStatement (g : List (String × PyValue)) (m : String) :
    Except String Unit :=
  if (builtinNamesOf g).contains "__import__" then Except.ok ()
  else Except.error "ImportError: __import__ not found"

/-! ## Helper lemmas -/

lemma nsLookup_eq_none_iff (g : List (String × PyValue)) (k : String) :
    nsLookup g k = none ↔ k ∉ nsNames g := by
  induction g with
  | nil => simp [nsLookup, nsNames]
  | cons a rest ih =>
    obtain ⟨k', v⟩ := a
    by_cases hk : k' = k
    · simp [nsLookup, nsNames, hk, ih]
    · simp only [nsLookup, hk, if_false, ih, nsNames, List.map_cons,
        List.mem_cons]
      constructor
      · intro h hor
        rcases hor with hor | hor
        · exact hk hor.symm
        · exact h hor
      · intro h hmem
        exact h (Or.inr hmem)

lemma startsWithL_subset {p l : List Char} (h : startsWithL p l = true) :
    ∀ c ∈ p, c ∈ l := by
  induction p generalizing l with
  | nil => simp
  | cons a as ih =>
    cases l with
    | nil => simp [startsWithL] at h
    | cons b bs =>
      simp only [startsWithL, Bool.and_eq_true, beq_iff_eq] at h
      obtain ⟨hab, hrest⟩ := h
      intro c hc
      rcases List.mem_cons.mp hc with hc | hc
      · subst hc; simp [hab]
      · exact List.mem_cons_of_mem _ (ih hrest c hc)

lemma containsL_subset {p l : List Char} (h : containsL p l = true) :
    ∀ c ∈ p, c ∈ l := by
  induction l with
  | nil =>
    have : p = [] := by
      simpa [containsL, List.isEmpty_iff] using h
    simp [this]
  | cons b bs ih =>
    simp only [containsL, Bool.or_eq_true] at h
    rcases h with h | h
    · exact startsWithL_subset h
    · intro c hc
      exact List.mem_cons_of_mem _ (ih h c hc)

lemma pyIsSpace_toLower_self {c : Char} (h : pyIsSpace c = true) :
    Char.toLower c = c := by
  have h6 : c = ' ' ∨ c = '\t' ∨ c = '\n' ∨ c = '\r' ∨ c = '\x0b' ∨
      c = '\x0c' := by
    simpa [pyIsSpace, or_assoc] using h
  rcases h6 with h | h | h | h | h | h <;> subst h <;> decide

lemma nonspace_of_toLower_nonspace {c : Char}
    (h : pyIsSpace (Char.toLower c) = false) : pyIsSpace c = false := by
  by_contra hc
  have hc' : pyIsSpace c = true := by simpa using hc
  rw [pyIsSpace_toLower_self hc'] at h
  rw [hc'] at h
  simp at h

lemma strip_guard_false {s : String} {c : Char} (hc : c ∈ s.data)
    (hns : pyIsSpace c = false) :
    (strIsEmpty s || strIsEmpty (pyStrip s)) = false := by
  have h1 : strIsEmpty s = false := by
    simp only [strIsEmpty, List.isEmpty_eq_false]
    intro hnil
    rw [hnil] at hc
    exact (List.not_mem_nil c) hc
  have h2 : strIsEmpty (pyStrip s) = false := by
    simp only [strIsEmpty, pyStrip, List.isEmpty_eq_false, ne_eq,
      List.reverse_eq_nil_iff]
    intro hnil
    have hall : ∀ x ∈ s.data.dropWhile pyIsSpace, pyIsSpace x := by
      intro x hx
      exact List.dropWhile_eq_nil_iff.mp hnil x (List.mem_reverse.mpr hx)
    have halls : ∀ x ∈ s.data, pyIsSpace x := by
      intro x hx
      rw [← List.takeWhile_append_dropWhile (p := pyIsSpace) (l := s.data)]
        at hx
      rcases List.mem_append.mp hx with hx | hx
      · exact List.mem_takeWhile_imp hx
      · exact hall x hx
    rw [halls c hc] at hns
    simp at hns
  rw [h1, h2]
  rfl

lemma dangerous_patterns_nonspace :
    ∀ p ∈ dangerous_patterns, ∃ c ∈ p.data, pyIsSpace c = false := by decide

lemma guard_false_of_pattern {code p : String} (hp : p ∈ dangerous_patterns)
    (hin : pyIn p (pyLower code) = true) :
    (strIsEmpty code || strIsEmpty (pyStrip code)) = false := by
  obtain ⟨c, hcp, hcs⟩ := dangerous_patterns_nonspace p hp
  have hc2 : c ∈ (pyLower code).data := containsL_subset hin c hcp
  have hmap : (pyLower code).data = code.data.map Char.toLower := rfl
  rw [hmap] at hc2
  obtain ⟨c', hc', hlc⟩ := List.mem_map.mp hc2
  have hns' : pyIsSpace c' = false := by
    rw [← hlc] at hcs
    exact nonspace_of_toLower_nonspace hcs
  exact strip_guard_false hc' hns'

lemma validate_code_of_pattern {code p : String}
    (pyParse : String → Option String) (hp : p ∈ dangerous_patterns)
    (hin : pyIn p (pyLower code) = true) :
    ∃ q ∈ dangerous_patterns, pyIn q (pyLower code) = true ∧
      validate_code pyParse code =
        { valid := false
          error := strCat "Potentially dangerous operation detected: " q } := by
  have hguard := guard_false_of_pattern hp hin
  have hsome : (dangerous_patterns.find?
      (fun q => pyIn q (pyLower code))).isSome := by
    rw [List.find?_isSome]
    exact ⟨p, hp, hin⟩
  obtain ⟨q, hq⟩ := Option.isSome_iff_exists.mp hsome
  have hqp := List.find?_some hq
  refine ⟨q, List.mem_of_find?_eq_some hq, hqp, ?_⟩
  unfold validate_code
  rw [hguard, hq]
  rfl

lemma allowed_shortNames_nodup : (ALLOWED_IMPORTS.map shortName).Nodup := by
  decide

lemma allowed_shortNames_ne_builtins :
    ∀ m ∈ ALLOWED_IMPORTS, shortName m ≠ "__builtins__" := by decide

lemma lookup_modules_mem {l : List String} {imp : String → Bool}
    (hnd : (l.map shortName).Nodup) {m : String} (hm : m ∈ l)
    (him : imp m = true) :
    nsLookup ((l.filter imp).map (fun x => (shortName x, PyValue.pyModule x)))
      (shortName m) = some (PyValue.pyModule m) := by
  induction l with
  | nil => cases hm
  | cons a rest ih =>
    simp only [List.map_cons, List.nodup_cons] at hnd
    obtain ⟨hna, hndr⟩ := hnd
    rcases List.mem_cons.mp hm with hm | hm
    · subst hm
      rw [List.filter_cons, if_pos him]
      simp [nsLookup]
    · rw [List.filter_cons]
      by_cases ha : imp a = true
      · rw [if_pos ha]
        simp only [List.map_cons, nsLookup]
        have hne : shortName a ≠ shortName m := by
          intro he
          exact hna (he ▸ List.mem_map_of_mem shortName hm)
        rw [if_neg hne]
        exact ih hndr hm
      · rw [if_neg ha]
        exact ih hndr hm

lemma lookup_modules_not_importable {l : List String} {imp : String → Bool}
    (hnd : (l.map shortName).Nodup) {m : String} (hm : m ∈ l)
    (him : imp m = false) :
    nsLookup ((l.filter imp).map (fun x => (shortName x, PyValue.pyModule x)))
      (shortName m) = none := by
  rw [nsLookup_eq_none_iff]
  intro hmem
  simp only [nsNames, List.map_map] at hmem
  obtain ⟨x, hx, hsx⟩ := List.mem_map.mp hmem
  obtain ⟨hxl, hxi⟩ := List.mem_filter.mp hx
  have hxm : x = m := List.inj_on_of_nodup_map hnd hxl hm hsx
  rw [hxm] at hxi
  rw [him] at hxi
  cases hxi

lemma create_safe_globals_builtins (ai : List String) (imp : String → Bool) :
    nsLookup (create_safe_globals ai imp) "__builtins__" =
      some (PyValue.builtinsDict safe_builtin_names) := by
  simp [create_safe_globals, nsLookup]

lemma create_safe_globals_module_mem {imp : String → Bool} {m : String}
    (hm : m ∈ ALLOWED_IMPORTS) (him : imp m = true) :
    nsLookup (create_safe_globals ALLOWED_IMPORTS imp) (shortName m) =
      some (PyValue.pyModule m) := by
  simp only [create_safe_globals, nsLookup]
  rw [if_neg (allowed_shortNames_ne_builtins m hm).symm]
  exact lookup_modules_mem allowed_shortNames_nodup hm him

lemma create_safe_globals_module_absent {imp : String → Bool} {m : String}
    (hm : m ∈ ALLOWED_IMPORTS) (him : imp m = false) :
    nsLookup (create_safe_globals ALLOWED_IMPORTS imp) (shortName m) = none := by
  simp only [create_safe_globals, nsLookup]
  rw [if_neg (allowed_shortNames_ne_builtins m hm).symm]
  exact lookup_modules_not_importable allowed_shortNames_nodup hm him

lemma create_safe_globals_names (ai : List String) (imp : String → Bool) :
    nsNames (create_safe_globals ai imp) =
      "__builtins__" :: (ai.filter imp).map shortName := by
  simp [nsNames, create_safe_globals, List.map_map]

lemma execute_code_valid_run {ex : CodeExecutor} {importable : String → Bool}
    {pyParse : String → Option String}
    {run : List (String × PyValue) → RunBehavior} {elapsed : ℚ} {code : String}
    (hv : (validate_code pyParse code).valid = true) :
    execute_code ex importable pyParse run elapsed code =
      match run (create_safe_globals ex.allowed_imports importable) with
      | RunBehavior.timeout _ _ =>
          { success := false, output := ""
            error := strCat (strCat "Code execution timed out after "
              (toString ex.max_execution_time)) " seconds"
            execution_time := elapsed, code := code }
      | RunBehavior.finished stdout stderr =>
          { success := true
            output := if pyLen stdout > ex.max_output_length then
                strCat (pyTake stdout ex.max_output_length) truncation_marker
              else stdout
            error := if strIsEmpty stderr then "" else stderr
            execution_time := elapsed, code := code }
      | RunBehavior.callerSyntaxError msg =>
          { success := false, output := ""
            error := strCat "Syntax Error: " msg
            execution_time := elapsed, code := code }
      | RunBehavior.callerImportError msg =>
          { success := false, output := ""
            error := strCat (strCat "Import Error: " msg)
              " - This import is not allowed for security reasons"
            execution_time := elapsed, code := code }
      | RunBehavior.callerOtherError msg =>
          { success := false, output := ""
            error := strCat "Runtime Error: " msg
            execution_time := elapsed, code := code } := by
  simp only [execute_code]
  rw [hv]
  rw [if_neg (by decide)]

lemma execute_code_invalid {ex : CodeExecutor} {importable : String → Bool}
    {pyParse : String → Option String}
    {run : List (String × PyValue) → RunBehavior} {elapsed : ℚ} {code : String}
    (hv : (validate_code pyParse code).valid = false) :
    execute_code ex importable pyParse run elapsed code =
      { success := false, output := ""
        error := (validate_code pyParse code).error
        execution_time := 0, code := code } := by
  simp only [execute_code]
  rw [hv]
  simp

lemma strip_empty_of_all_space {s : String}
    (h : ∀ c ∈ s.data, pyIsSpace c = true) :
    (strIsEmpty s || strIsEmpty (pyStrip s)) = true := by
  have hnil : s.data.dropWhile pyIsSpace = [] :=
    List.dropWhile_eq_nil_iff.mpr h
  simp [strIsEmpty, pyStrip, hnil]

lemma strIsEmpty_eq_empty {s : String} (h : strIsEmpty s = true) : s = "" := by
  cases s with
  | mk data =>
    simp only [strIsEmpty, List.isEmpty_eq_true] at h
    subst h
    rfl

lemma ite_strIsEmpty_self (s : String) :
    (if strIsEmpty s then "" else s) = s := by
  by_cases h : strIsEmpty s
  · rw [if_pos h, strIsEmpty_eq_empty h]
  · rw [if_neg h]

lemma pyLen_strCat (a b : String) : pyLen (strCat a b) = pyLen a + pyLen b := by
  simp [pyLen, strCat]

lemma pyLen_pyTake (s : String) (n : Nat) :
    pyLen (pyTake s n) = min n (pyLen s) := by
  simp [pyLen, pyTake]

/-- Modelled from the spec: the permitted core type constructors (spec 4.2). -/
def spec_type_constructors : List String :=
  ["str", "int", "float", "bool", "list", "dict", "tuple", "set"]

/-- Modelled from the spec: basic iteration, aggregation and sorting
primitives (spec 4.2). -/
def spec_iteration_aggregation : List String :=
  ["len", "range", "enumerate", "zip", "map", "filter", "sorted",
   "sum", "min", "max", "abs", "round", "pow", "divmod"]

/-- Modelled from the spec: basic introspection (spec 4.2). -/
def spec_introspection : List String := ["type", "isinstance"]

/-- Modelled from the spec: the fixed set of built-in exception categories
(spec 4.2). -/
def spec_exception_categories : List String :=
  ["ValueError", "TypeError", "IndexError", "KeyError", "Exception"]

/-- Modelled from the spec: I/O limited to the print/output primitive
(spec 4.2). -/
def spec_output_primitive : List String := ["print"]

/-- Modelled from the spec: the whole closed set of permitted built-in
operations of spec 4.2, as the union of its categories. -/
def spec_builtin_allowlist : List String :=
  spec_output_primitive ++ spec_type_constructors ++
    spec_iteration_aggregation ++ spec_introspection ++
    spec_exception_categories

/-- C1: any input containing a denylist term (case-insensitively, anywhere in
the text) is rejected by validation: `execute_code` returns `success=false`,
empty output, `execution_time = 0`, and an error message naming the matched
term (the first matching pattern in denylist order).  The returned record is
the same for every `run`, `importable`, `pyParse` and `elapsed` oracle — the
conclusion does not mention them — so the execution namespace is never
constructed and the code is never executed. -/
theorem c1_denylist_rejects_without_execution
    (code p : String) (hp : p ∈ dangerous_patterns)
    (hin : pyIn p (pyLower code) = true)
    (ex : CodeExecutor) (importable : String → Bool)
    (pyParse : String → Option String)
    (run : List (String × PyValue) → RunBehavior) (elapsed : ℚ) :
    ∃ q ∈ dangerous_patterns, pyIn q (pyLower code) = true ∧
      execute_code ex importable pyParse run elapsed code =
        { success := false, output := ""
          error := strCat "Potentially dangerous operation detected: " q
          execution_time := 0, code := code } := by
  obtain ⟨q, hq, hqin, hval⟩ := validate_code_of_pattern pyParse hp hin
  refine ⟨q, hq, hqin, ?_⟩
  rw [execute_code_invalid (by rw [hval])]
  rw [hval]

/-- C1 witness: the repository's own security-test input
`import os; print(os.getcwd())` is rejected with the error naming
`import os`, at concrete oracles. -/
theorem c1_witness :
    "import os" ∈ dangerous_patterns ∧
    pyIn "import os" (pyLower "import os; print(os.getcwd())") = true ∧
    (∃ q ∈ dangerous_patterns,
      pyIn q (pyLower "import os; print(os.getcwd())") = true ∧
      execute_code defaultExecutor (fun _ => true) (fun _ => none)
        (fun _ => RunBehavior.finished "" "") 0
        "import os; print(os.getcwd())" =
        { success := false, output := ""
          error := strCat "Potentially dangerous operation detected: " q
          execution_time := 0, code := "import os; print(os.getcwd())" }) :=
  ⟨by decide, by decide,
    c1_denylist_rejects_without_execution "import os; print(os.getcwd())"
      "import os" (by decide) (by decide) defaultExecutor (fun _ => true)
      (fun _ => none) (fun _ => RunBehavior.finished "" "") 0⟩

/-- C2: when the worker run is still alive at the deadline, `execute_code`
returns `success=false`, `error = "Code execution timed out after N seconds"`
with `N` the configured `max_execution_time`, and `output = ""` — the
abandoned run's captured buffers `bufOut`/`bufErr` are not included in the
result (the conclusion does not mention them). -/
theorem c2_timeout_result (ex : CodeExecutor) (importable : String → Bool)
    (pyParse : String → Option String) (bufOut bufErr : String)
    (elapsed : ℚ) (code : String)
    (hv : (validate_code pyParse code).valid = true) :
    execute_code ex importable pyParse
      (fun _ => RunBehavior.timeout bufOut bufErr) elapsed code =
      { success := false, output := ""
        error := strCat (strCat "Code execution timed out after "
          (toString ex.max_execution_time)) " seconds"
        execution_time := elapsed, code := code } := by
  rw [execute_code_valid_run hv]

/-- C2 witness: a timed-out `while True: pass` run under the default
configuration yields exactly the literal message
`Code execution timed out after 10 seconds`, with the abandoned buffers
dropped. -/
theorem c2_witness :
    (validate_code (fun _ => none) "while True: pass").valid = true ∧
    execute_code defaultExecutor (fun _ => true) (fun _ => none)
      (fun _ => RunBehavior.timeout "abandoned output" "boom") 3
      "while True: pass" =
      { success := false, output := ""
        error := "Code execution timed out after 10 seconds"
        execution_time := 3, code := "while True: pass" } :=
  ⟨by decide,
    (c2_timeout_result defaultExecutor (fun _ => true) (fun _ => none)
      "abandoned output" "boom" 3 "while True: pass" (by decide)).trans
      (by decide)⟩

/-- C5: empty or whitespace-only input yields `success=false`,
`error="No code provided"`, `output=""` and `execution_time=0`; and, in
general, every validation failure yields `success=false`, `output=""`,
`execution_time=0` and `error` equal to the validator's error text. -/
theorem c5_validation_failure_assembly (ex : CodeExecutor)
    (importable : String → Bool) (pyParse : String → Option String)
    (run : List (String × PyValue) → RunBehavior) (elapsed : ℚ)
    (code : String) :
    ((∀ c ∈ code.data, pyIsSpace c = true) →
      execute_code ex importable pyParse run elapsed code =
        { success := false, output := "", error := "No code provided"
          execution_time := 0, code := code }) ∧
    ((validate_code pyParse code).valid = false →
      execute_code ex importable pyParse run elapsed code =
        { success := false, output := ""
          error := (validate_code pyParse code).error
          execution_time := 0, code := code }) := by
  constructor
  · intro hws
    have hg := strip_empty_of_all_space hws
    have hval : validate_code pyParse code =
        { valid := false, error := "No code provided" } := by
      unfold validate_code
      rw [hg]
      simp
    rw [execute_code_invalid (by rw [hval])]
    rw [hval]
  · intro hv
    exact execute_code_invalid hv

/-- C5 witness: whitespace-only input `"  \t\n "` and a syntactically
invalid input `"x = ("` both produce the validation-failure record. -/
theorem c5_witness :
    (execute_code defaultExecutor (fun _ => true) (fun _ => none)
        (fun _ => RunBehavior.finished "x" "") 2 "  \t\n " =
      { success := false, output := "", error := "No code provided"
        execution_time := 0, code := "  \t\n " }) ∧
    (execute_code defaultExecutor (fun _ => true) (fun _ => some "bad")
        (fun _ => RunBehavior.finished "x" "") 2 "x = (" =
      { success := false, output := ""
        error := (validate_code (fun _ => some "bad") "x = (").error
        execution_time := 0, code := "x = (" }) :=
  ⟨(c5_validation_failure_assembly defaultExecutor (fun _ => true)
      (fun _ => none) (fun _ => RunBehavior.finished "x" "") 2
      "  \t\n ").1 (by decide),
   (c5_validation_failure_assembly defaultExecutor (fun _ => true)
      (fun _ => some "bad") (fun _ => RunBehavior.finished "x" "") 2
      "x = (").2 (by decide)⟩


/-- C4: for a successful execution, stdout longer than `max_output_length`
characters is replaced by exactly its first `max_output_length` characters
followed by the fixed truncation marker, and the output length then equals
`max_output_length + pyLen truncation_marker`; the output never exceeds that
bound; stdout of length at most `max_output_length` is returned unchanged;
and the captured stderr is never truncated, whatever its length. -/
theorem c4_output_truncation (ex : CodeExecutor) (importable : String → Bool)
    (pyParse : String → Option String) (stdout stderr : String)
    (elapsed : ℚ) (code : String)
    (hv : (validate_code pyParse code).valid = true) :
    (pyLen stdout > ex.max_output_length →
      (execute_code ex importable pyParse
          (fun _ => RunBehavior.finished stdout stderr) elapsed code).output =
        strCat (pyTake stdout ex.max_output_length) truncation_marker ∧
      pyLen (execute_code ex importable pyParse
          (fun _ => RunBehavior.finished stdout stderr) elapsed code).output =
        ex.max_output_length + pyLen truncation_marker) ∧
    (pyLen stdout ≤ ex.max_output_length →
      (execute_code ex importable pyParse
          (fun _ => RunBehavior.finished stdout stderr) elapsed code).output =
        stdout) ∧
    pyLen (execute_code ex importable pyParse
        (fun _ => RunBehavior.finished stdout stderr) elapsed code).output ≤
      ex.max_output_length + pyLen truncation_marker ∧
    (execute_code ex importable pyParse
        (fun _ => RunBehavior.finished stdout stderr) elapsed code).error =
      stderr := by
  rw [execute_code_valid_run hv]
  dsimp only
  refine ⟨?_, ?_, ?_, ?_⟩
  · intro hgt
    rw [if_pos hgt]
    refine ⟨rfl, ?_⟩
    rw [pyLen_strCat, pyLen_pyTake, Nat.min_eq_left (Nat.le_of_lt hgt)]
  · intro hle
    rw [if_neg (by omega)]
  · by_cases hgt : pyLen stdout > ex.max_output_length
    · rw [if_pos hgt, pyLen_strCat, pyLen_pyTake,
        Nat.min_eq_left (Nat.le_of_lt hgt)]
    · rw [if_neg hgt]
      omega
  · exact ite_strIsEmpty_self stderr

/-- C4 witness: with `max_output_length = 5`, the nine-character stdout
`"123456789"` is truncated to its first five characters plus the marker,
and stderr is passed through untouched. -/
theorem c4_witness :
    pyLen "123456789" > 5 ∧
    (execute_code ⟨10, 5, ALLOWED_IMPORTS⟩ (fun _ => true) (fun _ => none)
        (fun _ => RunBehavior.finished "123456789" "e") 1 "print(1)").output =
      strCat (pyTake "123456789" 5) truncation_marker ∧
    (execute_code ⟨10, 5, ALLOWED_IMPORTS⟩ (fun _ => true) (fun _ => none)
        (fun _ => RunBehavior.finished "123456789" "e") 1 "print(1)").error =
      "e" :=
  ⟨by decide,
   ((c4_output_truncation ⟨10, 5, ALLOWED_IMPORTS⟩ (fun _ => true)
      (fun _ => none) "123456789" "e" 1 "print(1)" (by decide)).1
      (by decide)).1,
   (c4_output_truncation ⟨10, 5, ALLOWED_IMPORTS⟩ (fun _ => true)
      (fun _ => none) "123456789" "e" 1 "print(1)" (by decide)).2.2.2⟩

/-- C9: executing `print('Hello, World!')` — an input that passes the
denylist scan and parses — with the run writing `Hello, World!\n` to the
redirected stdout and nothing to stderr, yields `success=true`,
`output = "Hello, World!\n"` and `error = ""`. -/
theorem c9_hello_world (importable : String → Bool)
    (pyParse : String → Option String) (elapsed : ℚ)
    (hparse : pyParse "print('Hello, World!')" = none) :
    execute_code defaultExecutor importable pyParse
      (fun _ => RunBehavior.finished "Hello, World!\n" "") elapsed
      "print('Hello, World!')" =
      { success := true, output := "Hello, World!\n", error := ""
        execution_time := elapsed, code := "print('Hello, World!')" } := by
  have hval : validate_code pyParse "print('Hello, World!')" =
      { valid := true, error := "" } := by
    unfold validate_code
    rw [show (strIsEmpty "print('Hello, World!')" ||
        strIsEmpty (pyStrip "print('Hello, World!')")) = false from by decide]
    rw [show dangerous_patterns.find?
        (fun p => pyIn p (pyLower "print('Hello, World!')")) = none from by
      decide]
    rw [hparse]
    rfl
  rw [execute_code_valid_run (by rw [hval])]
  dsimp only
  rw [if_neg (by decide), if_pos (by decide)]

/-- C9 witness: the Hello-World result at concrete oracles. -/
theorem c9_witness :
    execute_code defaultExecutor (fun _ => true) (fun _ => none)
      (fun _ => RunBehavior.finished "Hello, World!\n" "") 1
      "print('Hello, World!')" =
      { success := true, output := "Hello, World!\n", error := ""
        execution_time := 1, code := "print('Hello, World!')" } :=
  c9_hello_world (fun _ => true) (fun _ => none) 1 rfl

/-- C3 (evaluation at the failing input): the claim says a runtime fault
such as division by zero yields `success=false` with an error prefixed
`Runtime Error:` — which is what the handlers of lines 90-95 were clearly
written to produce.  In fact `exec` runs on a worker thread and
`threading.Thread.join` does not re-raise: the fault is swallowed, the
thread's excepthook writes the traceback to the redirected stderr, and the
caller takes the normal-completion path.  On the repository's own test input
`x = 1 / 0  # Division by zero` the result is `success=true` with the raw
traceback (no `Runtime Error:` prefix) as `error`. -/
theorem c3_worker_fault_not_classified :
    execute_code defaultExecutor (fun _ => true) (fun _ => none)
      (fun _ => RunBehavior.finished ""
        "Exception in thread Thread-1:\nZeroDivisionError: division by zero\n")
      1 "x = 1 / 0  # Division by zero" =
      { success := true, output := ""
        error :=
          "Exception in thread Thread-1:\nZeroDivisionError: division by zero\n"
        execution_time := 1, code := "x = 1 / 0  # Division by zero" } := by
  decide

/-- C6 (evaluation at the failing input): the claim says every error kind is
converted into a result with `success=false`.  A fault raised by the
submitted code in the worker thread (here an IndexError from
`y = [1, 2][5]`) is swallowed by the threading machinery and reported as
`success=true`, with the traceback in `error`.  The remaining parts of the
claim (a structured result is always returned and `code` echoes the input
unchanged) do hold, as the record below also shows. -/
theorem c6_worker_fault_reported_as_success :
    execute_code defaultExecutor (fun _ => true) (fun _ => none)
      (fun _ => RunBehavior.finished ""
        "Exception in thread Thread-2:\nIndexError: list index out of range\n")
      1 "y = [1, 2][5]" =
      { success := true, output := ""
        error :=
          "Exception in thread Thread-2:\nIndexError: list index out of range\n"
        execution_time := 1, code := "y = [1, 2][5]" } := by
  decide


/-- C7 counterexample: the claim as stated — every name bound during request
A's execution (in its globals or locals) is absent from request B's initial
namespace — is false.  Request A may bind the identifier `math` by the plain
assignment `math = 5` (placing it in A's locals); request B's initial
namespace nevertheless contains `math`, bound to the shared allowlisted
module object. -/
theorem c7_counterexample :
    ¬ (∀ (prev : RequestState) (n : String), isPyIdent n = true →
        (n ∈ nsNames prev.globals ∨ n ∈ nsNames prev.locals) →
        nsLookup (nextRequestInitial defaultExecutor (fun _ => true)
          prev).globals n = none ∧
        nsLookup (nextRequestInitial defaultExecutor (fun _ => true)
          prev).locals n = none) := by
  intro h
  obtain ⟨h1, h2⟩ := h { globals := [], locals := [("math", PyValue.userObj 1 0)] }
    "math" (by decide) (Or.inr (by decide))
  revert h1
  decide

/-- C7 amended: request B's initial state is rebuilt per request as the same
fixed mapping determined only by the executor's policy and host
importability — it is identical for any two previous-request final states,
so no binding or object created by request A carries over — and every name
outside the fixed initial names (`__builtins__` and the allowlisted module
short names) is absent from B's initial globals and locals. -/
theorem c7_fresh_namespace (ex : CodeExecutor) (importable : String → Bool)
    (prev prev2 : RequestState) (n : String)
    (hn : n ∉ nsNames (create_safe_globals ex.allowed_imports importable)) :
    nextRequestInitial ex importable prev =
      nextRequestInitial ex importable prev2 ∧
    nsLookup (nextRequestInitial ex importable prev).globals n = none ∧
    nsLookup (nextRequestInitial ex importable prev).locals n = none := by
  refine ⟨rfl, ?_, rfl⟩
  exact (nsLookup_eq_none_iff _ _).mpr hn

/-- C7 witness: the new name `leaked_name` bound by request A is absent from
request B's initial namespace, and B's initial state is the same whatever
request A left behind. -/
theorem c7_witness :
    "leaked_name" ∉ nsNames (create_safe_globals
      defaultExecutor.allowed_imports (fun _ => true)) ∧
    nextRequestInitial defaultExecutor (fun _ => true)
        { globals := [], locals := [("leaked_name", PyValue.userObj 1 0)] } =
      nextRequestInitial defaultExecutor (fun _ => true)
        { globals := [], locals := [] } ∧
    nsLookup (nextRequestInitial defaultExecutor (fun _ => true)
      { globals := [], locals := [("leaked_name", PyValue.userObj 1 0)] }).globals
      "leaked_name" = none :=
  ⟨by decide,
   (c7_fresh_namespace defaultExecutor (fun _ => true)
      { globals := [], locals := [("leaked_name", PyValue.userObj 1 0)] }
      { globals := [], locals := [] } "leaked_name" (by decide)).1,
   (c7_fresh_namespace defaultExecutor (fun _ => true)
      { globals := [], locals := [("leaked_name", PyValue.userObj 1 0)] }
      { globals := [], locals := [] } "leaked_name" (by decide)).2.1⟩

/-- C8: the constructed namespace binds `__builtins__` to exactly the fixed
builtin allowlist — which is, up to order, precisely the spec's categories
(print, type constructors, iteration/aggregation/sorting primitives,
`type`/`isinstance`, and the fixed exception categories) — binds every
importable allowed module under its dotted-suffix-stripped short name,
silently omits a non-importable module, and binds nothing else: every key is
`__builtins__` or the short name of an importable allowed module. -/
theorem c8_namespace_is_exactly_allowlist (importable : String → Bool) :
    nsLookup (create_safe_globals ALLOWED_IMPORTS importable) "__builtins__" =
      some (PyValue.builtinsDict safe_builtin_names) ∧
    safe_builtin_names.Perm spec_builtin_allowlist ∧
    (∀ m, m ∈ ALLOWED_IMPORTS → importable m = true →
      nsLookup (create_safe_globals ALLOWED_IMPORTS importable)
        (shortName m) = some (PyValue.pyModule m)) ∧
    (∀ m, m ∈ ALLOWED_IMPORTS → importable m = false →
      nsLookup (create_safe_globals ALLOWED_IMPORTS importable)
        (shortName m) = none) ∧
    (∀ k, k ∈ nsNames (create_safe_globals ALLOWED_IMPORTS importable) →
      k = "__builtins__" ∨
        ∃ m, m ∈ ALLOWED_IMPORTS ∧ importable m = true ∧ k = shortName m) := by
  refine ⟨create_safe_globals_builtins _ _, by decide, ?_, ?_, ?_⟩
  · intro m hm him
    exact create_safe_globals_module_mem hm him
  · intro m hm him
    exact create_safe_globals_module_absent hm him
  · intro k hk
    rw [create_safe_globals_names] at hk
    rcases List.mem_cons.mp hk with hk | hk
    · exact Or.inl hk
    · obtain ⟨m, hmf, hsm⟩ := List.mem_map.mp hk
      obtain ⟨hml, hmi⟩ := List.mem_filter.mp hmf
      exact Or.inr ⟨m, hml, hmi, hsm.symm⟩

/-- C8 witness: with `numpy` made unavailable in the hosting environment,
`matplotlib.pyplot` is bound under `pyplot` while `numpy` is silently
omitted. -/
theorem c8_witness :
    nsLookup (create_safe_globals ALLOWED_IMPORTS (fun m => !(m == "numpy")))
      (shortName "matplotlib.pyplot") =
      some (PyValue.pyModule "matplotlib.pyplot") ∧
    nsLookup (create_safe_globals ALLOWED_IMPORTS (fun m => !(m == "numpy")))
      (shortName "numpy") = none :=
  ⟨(c8_namespace_is_exactly_allowlist (fun m => !(m == "numpy"))).2.2.1
      "matplotlib.pyplot" (by decide) (by decide),
   (c8_namespace_is_exactly_allowlist (fun m => !(m == "numpy"))).2.2.2.1
      "numpy" (by decide) (by decide)⟩

/-- C10: the `__builtins__` mapping of every constructed namespace omits
`__import__`, so an `import` statement executed inside submitted code fails
at runtime for every module name — including the allowlisted ones — and
allowed modules are reachable only through the short names pre-bound in the
namespace. -/
theorem c10_import_statement_always_fails (importable : String → Bool)
    (m : String) :
    "__import__" ∉ builtinNamesOf
      (create_safe_globals ALLOWED_IMPORTS importable) ∧
    runImportStatement (create_safe_globals ALLOWED_IMPORTS importable) m =
      Except.error "ImportError: __import__ not found" ∧
    (m ∈ ALLOWED_IMPORTS → importable m = true →
      nsLookup (create_safe_globals ALLOWED_IMPORTS importable)
        (shortName m) = some (PyValue.pyModule m)) := by
  have hb : builtinNamesOf (create_safe_globals ALLOWED_IMPORTS importable) =
      safe_builtin_names := by
    simp [builtinNamesOf, create_safe_globals_builtins]
  refine ⟨?_, ?_, ?_⟩
  · rw [hb]
    decide
  · unfold runImportStatement
    rw [hb]
    rw [show safe_builtin_names.contains "__import__" = false from by decide]
    rfl
  · intro hm him
    exact create_safe_globals_module_mem hm him

/-- C10 witness: even `import math` fails at runtime, although the `math`
module object is pre-bound under its short name. -/
theorem c10_witness :
    "__import__" ∉ builtinNamesOf
      (create_safe_globals ALLOWED_IMPORTS (fun _ => true)) ∧
    runImportStatement (create_safe_globals ALLOWED_IMPORTS (fun _ => true))
      "math" = Except.error "ImportError: __import__ not found" ∧
    nsLookup (create_safe_globals ALLOWED_IMPORTS (fun _ => true))
      (shortName "math") = some (PyValue.pyModule "math") :=
  ⟨(c10_import_statement_always_fails (fun _ => true) "math").1,
   (c10_import_statement_always_fails (fun _ => true) "math").2.1,
   (c10_import_statement_always_fails (fun _ => true) "math").2.2
      (by decide) (by decide)⟩

end PythonAgent
